import Mathlib

/-!
Verification of cmd/cluster/support/delete.go (osdctl): the limited-support
reason deletion subcommand. The embedding translates the Go source into Lean:
the response interpreter checkDelete, the request builder createDeleteRequest,
and the orchestrator run are modelled as executable functions over an explicit
environment that supplies the outcomes of the external collaborators (the JSON
library, the OCM SDK connection, the HTTP transport). The orchestrator yields
a trace of observable events together with the termination outcome, so that
control-flow and resource claims can be stated over traces. A Go os.Exit (and
log.Fatalf) terminates the process without running deferred calls; an
unrecovered panic runs deferred calls while unwinding; both are reflected in
the model.
-/

namespace OsdctlSupportDelete

/-- The HTTP response of the delete call: status code and raw body bytes
(modelled as a string). Mirrors the fields of sdk.Response that
checkDelete reads via response.Status() and response.Bytes(). -/
structure Response where
  status : Nat
  bytes : String
  deriving Repr, DecidableEq

/-- Modelled from the spec: the expected error-shape record (BadReply, from
internal/support, which is repository code not present under src/). Its
fields are never inspected by delete.go, only unmarshal success or failure
matters, so it carries the parsed reply opaquely. -/
structure BadReply where
  reply : String
  deriving Repr, DecidableEq

/-- The outcomes of the external JSON library (encoding/json) on a body:
json.Valid, and json.Unmarshal into a possibly-nil BadReply pointer.
The library internals are out of scope; checkDelete is verified for every
behaviour of this interface. -/
structure JsonCodec where
  valid : String → Bool
  unmarshalBadReply : String → Except String (Option BadReply)

/-- Result of a Go function that may instead crash by dereferencing a nil
pointer. -/
inductive GoResult (α : Type) where
  | ret (val : α)
  | nilDeref
  deriving Repr, DecidableEq

/-- Go fmt %q applied to an error: the underlying error string in quotes. -/
def goQuote (s : String) : String :=
  "\x22" ++ s ++ "\x22"

/-- checkDelete (delete.go lines 151-168), on a possibly-nil *sdk.Response.
A nil pointer is dereferenced by the unconditional response.Bytes() call and
crashes. Otherwise it returns the list of strings printed to stdout and the
returned error (none for a nil error). -/
def checkDelete (J : JsonCodec) (response : Option Response) :
    GoResult (List String × Option String) :=
  match response with
  | none => GoResult.nilDeref
  | some r =>
    let body := r.bytes
    if r.status = 204 then
      GoResult.ret (["Limited support reason deleted successfully\n"], none)
    else if (J.valid body : Bool) = false then
      GoResult.ret ([], some "server returned invalid JSON")
    else
      match J.unmarshalBadReply body with
      | Except.error e =>
          GoResult.ret ([], some ("cannot parse the error JSON meessage: " ++ goQuote e))
      | Except.ok _ => GoResult.ret ([], none)

/-- The cluster record fetched from the service. Only its canonical ID is
read by delete.go; the extra field stands for the rest of the record. -/
structure Cluster where
  id : String
  rest : String
  deriving Repr, DecidableEq

/-- An sdk.Request: ocmClient.Delete() yields a DELETE request with no path;
arguments.ApplyPathArg then sets the path. -/
structure Request where
  method : String
  path : Option String
  deriving Repr, DecidableEq

/-- createDeleteRequest (delete.go lines 137-147). The external
arguments.ApplyPathArg is modelled by applyPath, giving the error it fails
with on the constructed path, or none on success, in which case the request
targets that path. -/
def createDeleteRequest (applyPath : String → Option String)
    (cluster : Cluster) (reasonID : String) : Except String Request :=
  let targetAPIPath :=
    "/api/clusters_mgmt/v1/clusters/" ++ cluster.id ++ "/limited_support_reasons/" ++ reasonID
  let request : Request := { method := "DELETE", path := none }
  match applyPath targetAPIPath with
  | some e =>
      Except.error ("cannot parse API path \x27" ++ targetAPIPath ++ "\x27: " ++ e)
  | none => Except.ok { request with path := some targetAPIPath }

/-- Observable events of one invocation of run, in execution order. -/
inductive Event where
  | logFatal (msg : String)
  | stderrPrint (msg : String)
  | stdoutPrint (msg : String)
  | confirmPrompt
  | clusterGetCall (clusterID : String)
  | buildRequestCall (clusterID reasonID : String)
  | sendCall (req : Option Request)
  | checkDeleteCall (resp : Option Response)
  | closeConnection
  deriving Repr, DecidableEq

/-- How the invocation ends: run returns a Go error value, or the process
terminates via os.Exit or log.Fatalf (which skips deferred calls), or an
unrecovered panic unwinds (running deferred calls). -/
inductive RunOutcome where
  | returned (err : Option String)
  | exited (code : Nat)
  | panicked
  deriving Repr, DecidableEq

/-- The deleteOptions record of delete.go, after complete() has filled it. -/
structure deleteOptions where
  output : String
  verbose : Bool
  clusterID : String
  limitedSupportReasonID : String
  deriving Repr, DecidableEq

/-- The external world of one invocation: the OCM_TOKEN environment
variable, the fallback token lookup, the connection builder, the cluster
GET, the path applier, the transport outcome of sendRequest (response and
error, the response possibly nil on failure), and the JSON library. -/
structure Env where
  ocmTokenEnv : String
  getOCMAccessToken : Except String String
  connBuild : Except String Unit
  clusterGetResult : Except String Cluster
  applyPath : String → Option String
  sendResp : Option Response
  sendErr : Option String
  json : JsonCodec

/-- Token resolution (delete.go lines 84-92): OCM_TOKEN if non-empty,
otherwise the ocm-cli fallback; an error is fatal. -/
def resolveToken (env : Env) : Except String String :=
  let token := env.ocmTokenEnv
  if token = "" then
    match env.getOCMAccessToken with
    | Except.error e => Except.error e
    | Except.ok t => Except.ok t
  else Except.ok token

/-- The log.Fatalf message for a missing token (delete.go line 88). -/
def tokenFatalMsg : String :=
  "OCM token not set. Please configure by using the OCM_TOKEN environment variable or the ocm cli"

/-- delete.go lines 119-122: createDeleteRequest with its error print; on
failure deleteRequest stays nil. -/
def buildStep (env : Env) (o : deleteOptions) (c : Cluster) :
    List Event × Option Request :=
  match createDeleteRequest env.applyPath c o.limitedSupportReasonID with
  | Except.error e =>
      ([Event.stdoutPrint ("failed post call " ++ goQuote e ++ "\n")], none)
  | Except.ok req => ([], some req)

/-- delete.go lines 123-126: the print after a sendRequest failure. -/
def sendPrints (env : Env) : List Event :=
  match env.sendErr with
  | some e =>
      [Event.stdoutPrint ("Failed to get delete call response: " ++ goQuote e ++ "\n")]
  | none => []

/-- delete.go lines 128-131: checkDelete with its own prints, the print of
a returned check error, and the outcome (a nil dereference inside
checkDelete panics). -/
def checkStep (env : Env) : List Event × RunOutcome :=
  match checkDelete env.json env.sendResp with
  | GoResult.nilDeref => ([], RunOutcome.panicked)
  | GoResult.ret (prints, errRes) =>
      (prints.map Event.stdoutPrint ++
        (match errRes with
         | some e => [Event.stdoutPrint ("check for delete call failed: " ++ goQuote e)]
         | none => []),
       RunOutcome.returned none)

/-- delete.go lines 119-133: the non-fatal tail of run, from request
construction to response interpretation. -/
def deleteStage (env : Env) (o : deleteOptions) (c : Cluster) :
    List Event × RunOutcome :=
  (Event.buildRequestCall c.id o.limitedSupportReasonID ::
     (buildStep env o c).1 ++
     Event.sendCall (buildStep env o c).2 ::
     sendPrints env ++
     Event.checkDeleteCall env.sendResp :: (checkStep env).1,
   (checkStep env).2)

/-- run (delete.go lines 79-134). Fatal failures (missing token, connection
build, cluster fetch) print a diagnostic and call os.Exit(1), which does not
run the deferred connection.Close(); the dry-run early return and the final
return (and a panic unwinding out of checkDelete) do run the deferred
close. -/
def run (env : Env) (o : deleteOptions) (isDryRun : Bool) :
    List Event × RunOutcome :=
  match resolveToken env with
  | Except.error _ =>
      ([Event.logFatal tokenFatalMsg], RunOutcome.exited 1)
  | Except.ok _ =>
    match env.connBuild with
    | Except.error e =>
        ([Event.stderrPrint ("Can\x27t build connection: " ++ e ++ "\n")],
         RunOutcome.exited 1)
    | Except.ok _ =>
      if isDryRun then
        ([Event.closeConnection], RunOutcome.returned none)
      else
        match env.clusterGetResult with
        | Except.error e =>
            ([Event.confirmPrompt, Event.clusterGetCall o.clusterID,
              Event.stderrPrint ("Can\x27t retrieve cluster: " ++ e ++ "\n")],
             RunOutcome.exited 1)
        | Except.ok cluster =>
            (Event.confirmPrompt :: Event.clusterGetCall o.clusterID ::
               (deleteStage env o cluster).1 ++ [Event.closeConnection],
             (deleteStage env o cluster).2)

/-- A concrete JSON codec used to instantiate universally quantified
theorems on concrete inputs. -/
def codec0 : JsonCodec where
  valid := fun s => s ≠ "not-json"
  unmarshalBadReply := fun s =>
    if s = "[1]" then Except.error "json: cannot unmarshal array"
    else Except.ok (some { reply := s })

/-- A concrete cluster used in witnesses. -/
def cluster1 : Cluster :=
  { id := "abc", rest := "x" }

/-- A second concrete cluster sharing the canonical ID of cluster1. -/
def cluster2 : Cluster :=
  { id := "abc", rest := "y" }

/-- The concrete request built for cluster1 and reason r1. -/
def req1 : Request :=
  { method := "DELETE",
    path := some "/api/clusters_mgmt/v1/clusters/abc/limited_support_reasons/r1" }

/-- Concrete options: cluster ID abc, reason ID r1. -/
def opts0 : deleteOptions :=
  { output := "", verbose := false, clusterID := "abc", limitedSupportReasonID := "r1" }

/-- A concrete 204 No Content response. -/
def resp204 : Response :=
  { status := 204, bytes := "" }

/-- A concrete failing response with a non-JSON body. -/
def resp500 : Response :=
  { status := 500, bytes := "not-json" }

/-- A fully successful external world. -/
def envOk : Env :=
  { ocmTokenEnv := "tok",
    getOCMAccessToken := Except.error "unused",
    connBuild := Except.ok (),
    clusterGetResult := Except.ok cluster1,
    applyPath := fun _ => none,
    sendResp := some resp204,
    sendErr := none,
    json := codec0 }

/-- A world in which the cluster GET fails. -/
def envFetchFail : Env :=
  { envOk with clusterGetResult := Except.error "boom" }

/-- A world in which all three non-fatal steps fail: the path applier, the
transport, and the interpretation of the (non-nil) response. -/
def envNonfatal : Env :=
  { envOk with
    applyPath := fun _ => some "bad path",
    sendResp := some resp500,
    sendErr := some "transport down" }

/-- A world in which the send fails and the transport yields a nil
response. -/
def envNilSend : Env :=
  { envOk with sendResp := none, sendErr := some "conn reset" }

/-- The createDeleteRequest error message produced in envNonfatal. -/
def pathErrMsg : String :=
  "cannot parse API path \x27/api/clusters_mgmt/v1/clusters/abc/limited_support_reasons/r1\x27: bad path"

/-- checkDelete never crashes on a non-nil response: every branch returns. -/
theorem checkDelete_some_ret (J : JsonCodec) (r : Response) :
    checkDelete J (some r) ≠ GoResult.nilDeref := by
  unfold checkDelete
  by_cases h1 : r.status = 204
  · simp [h1]
  · by_cases h2 : J.valid r.bytes = false
    · simp [h1, h2]
    · rcases h3 : J.unmarshalBadReply r.bytes with e | br
      · simp [h1, h2, h3]
      · simp [h1, h2, h3]

/-- The interpretation step never terminates the process: its outcome is a
normal return or a panic, never an os.Exit. -/
theorem checkStep_not_exited (env : Env) (n : Nat) :
    (checkStep env).2 ≠ RunOutcome.exited n := by
  unfold checkStep
  rcases checkDelete env.json env.sendResp with ⟨prints, errRes⟩ | _ <;> simp

/-- On a non-nil response the interpretation step returns normally. -/
theorem checkStep_some_returned (env : Env) (r : Response)
    (hresp : env.sendResp = some r) :
    (checkStep env).2 = RunOutcome.returned none := by
  unfold checkStep
  rw [hresp]
  rcases h : checkDelete env.json (some r) with ⟨prints, errRes⟩ | _
  · simp
  · exact absurd h (checkDelete_some_ret env.json r)

/-- Claim C1: for every response whose status is not 204 and whose body is
valid JSON that unmarshals successfully into BadReply, checkDelete discards
the parsed error details: it prints nothing and returns no error. -/
theorem checkDelete_wellformed_discards (J : JsonCodec) (r : Response)
    (br : Option BadReply)
    (hstatus : r.status ≠ 204)
    (hvalid : J.valid r.bytes = true)
    (hparse : J.unmarshalBadReply r.bytes = Except.ok br) :
    checkDelete J (some r) = GoResult.ret ([], none) := by
  simp only [checkDelete, hstatus, if_false, hvalid, hparse, if_neg]
  simp

/-- Witness for C1 on a concrete well-shaped error reply. -/
theorem checkDelete_wellformed_discards_witness :
    (400 : Nat) ≠ 204 ∧
    codec0.valid "ok-json" = true ∧
    codec0.unmarshalBadReply "ok-json" = Except.ok (some { reply := "ok-json" }) ∧
    checkDelete codec0 (some { status := 400, bytes := "ok-json" }) =
      GoResult.ret ([], none) :=
  ⟨by decide, by decide, by rfl,
    checkDelete_wellformed_discards codec0 { status := 400, bytes := "ok-json" }
      (some { reply := "ok-json" }) (by decide) (by decide) (by rfl)⟩

/-- Claim C2: for every response with status 204, regardless of the body,
checkDelete prints the literal success line
"Limited support reason deleted successfully" (terminated by the newline of
the Printf format) and returns no error. -/
theorem checkDelete_204_success (J : JsonCodec) (body : String) :
    checkDelete J (some { status := 204, bytes := body }) =
      GoResult.ret (["Limited support reason deleted successfully\n"], none) := by
  simp [checkDelete]

/-- Claim C6: for every response whose status is not 204 and whose body is
not syntactically valid JSON, checkDelete returns the error
"server returned invalid JSON". -/
theorem checkDelete_invalid_json (J : JsonCodec) (r : Response)
    (hstatus : r.status ≠ 204)
    (hvalid : J.valid r.bytes = false) :
    checkDelete J (some r) =
      GoResult.ret ([], some "server returned invalid JSON") := by
  simp [checkDelete, hstatus, hvalid]

/-- Witness for C6 on the spec example body not-json. -/
theorem checkDelete_invalid_json_witness :
    (400 : Nat) ≠ 204 ∧
    codec0.valid "not-json" = false ∧
    checkDelete codec0 (some { status := 400, bytes := "not-json" }) =
      GoResult.ret ([], some "server returned invalid JSON") :=
  ⟨by decide, by decide,
    checkDelete_invalid_json codec0 { status := 400, bytes := "not-json" }
      (by decide) (by decide)⟩

/-- Claim C7: for every response whose status is not 204 and whose body is
valid JSON that fails to unmarshal into BadReply, checkDelete returns a
parse error that embeds (as a quoted substring) the underlying unmarshal
failure. -/
theorem checkDelete_unmarshal_error (J : JsonCodec) (r : Response) (e : String)
    (hstatus : r.status ≠ 204)
    (hvalid : J.valid r.bytes = true)
    (hparse : J.unmarshalBadReply r.bytes = Except.error e) :
    checkDelete J (some r) =
      GoResult.ret ([], some ("cannot parse the error JSON meessage: " ++ goQuote e)) := by
  simp [checkDelete, hstatus, hvalid, hparse]

/-- Witness for C7 on a concrete shape-mismatched body. -/
theorem checkDelete_unmarshal_error_witness :
    (400 : Nat) ≠ 204 ∧
    codec0.valid "[1]" = true ∧
    codec0.unmarshalBadReply "[1]" = Except.error "json: cannot unmarshal array" ∧
    checkDelete codec0 (some { status := 400, bytes := "[1]" }) =
      GoResult.ret ([], some ("cannot parse the error JSON meessage: " ++
        goQuote "json: cannot unmarshal array")) :=
  ⟨by decide, by decide, by rfl,
    checkDelete_unmarshal_error codec0 { status := 400, bytes := "[1]" }
      "json: cannot unmarshal array" (by decide) (by decide) (by rfl)⟩

/-- Claim C3: whenever createDeleteRequest succeeds, the built request
targets exactly the DELETE path with cluster.id and reasonID substituted
verbatim, and the result is derived purely from (Cluster.id, reasonID):
two clusters with the same canonical ID give identical results. -/
theorem createDeleteRequest_path (applyPath : String → Option String)
    (cluster : Cluster) (reasonID : String) :
    (∀ req, createDeleteRequest applyPath cluster reasonID = Except.ok req →
      req.method = "DELETE" ∧
      req.path = some ("/api/clusters_mgmt/v1/clusters/" ++ cluster.id ++
        "/limited_support_reasons/" ++ reasonID)) ∧
    (∀ cluster2 : Cluster, cluster.id = cluster2.id →
      createDeleteRequest applyPath cluster reasonID =
        createDeleteRequest applyPath cluster2 reasonID) := by
  constructor
  · intro req hreq
    cases h : applyPath ("/api/clusters_mgmt/v1/clusters/" ++ cluster.id ++
        "/limited_support_reasons/" ++ reasonID) with
    | none =>
        simp only [createDeleteRequest, h, Except.ok.injEq] at hreq
        rw [← hreq]
        exact ⟨rfl, rfl⟩
    | some e =>
        simp [createDeleteRequest, h] at hreq
  · intro c2 hid
    simp only [createDeleteRequest, hid]

/-- Witness for C3 on concrete IDs with a succeeding path applier. -/
theorem createDeleteRequest_path_witness :
    (createDeleteRequest (fun _ => none) cluster1 "r1" = Except.ok req1 ∧
      (req1.method = "DELETE" ∧
        req1.path = some ("/api/clusters_mgmt/v1/clusters/" ++ cluster1.id ++
          "/limited_support_reasons/" ++ "r1"))) ∧
    (cluster1.id = cluster2.id ∧
      createDeleteRequest (fun _ => none) cluster1 "r1" =
        createDeleteRequest (fun _ => none) cluster2 "r1") :=
  ⟨⟨by rfl, (createDeleteRequest_path (fun _ => none) cluster1 "r1").1 req1 (by rfl)⟩,
   ⟨by rfl, (createDeleteRequest_path (fun _ => none) cluster1 "r1").2 cluster2 (by rfl)⟩⟩

/-- Claim C4: when the dry-run flag is set and the session has been built
(token resolved, connection built), run stops immediately: the whole trace
is the deferred close, so no confirmation prompt, no cluster lookup and no
DELETE send happen, and run returns success. -/
theorem run_dry_run_stops (env : Env) (o : deleteOptions) (tok : String)
    (htok : resolveToken env = Except.ok tok)
    (hconn : env.connBuild = Except.ok ()) :
    (run env o true).1 = [Event.closeConnection] ∧
    (run env o true).2 = RunOutcome.returned none ∧
    Event.confirmPrompt ∉ (run env o true).1 ∧
    (∀ cid, Event.clusterGetCall cid ∉ (run env o true).1) ∧
    (∀ req, Event.sendCall req ∉ (run env o true).1) := by
  have h : run env o true = ([Event.closeConnection], RunOutcome.returned none) := by
    simp [run, htok, hconn]
  rw [h]
  simp

/-- Witness for C4 in the fully successful world. -/
theorem run_dry_run_stops_witness :
    resolveToken envOk = Except.ok "tok" ∧
    envOk.connBuild = Except.ok () ∧
    ((run envOk opts0 true).1 = [Event.closeConnection] ∧
     (run envOk opts0 true).2 = RunOutcome.returned none ∧
     Event.confirmPrompt ∉ (run envOk opts0 true).1 ∧
     (∀ cid, Event.clusterGetCall cid ∉ (run envOk opts0 true).1) ∧
     (∀ req, Event.sendCall req ∉ (run envOk opts0 true).1)) :=
  ⟨rfl, rfl, run_dry_run_stops envOk opts0 "tok" rfl rfl⟩

/-- Claim C5 counterexample: on the cluster-fetch-failure exit path the
process terminates via os.Exit(1) and the deferred connection.Close() never
runs: the connection built by run is not closed on that exit path. -/
theorem run_close_counterexample :
    (run envFetchFail opts0 false).2 = RunOutcome.exited 1 ∧
    Event.closeConnection ∉ (run envFetchFail opts0 false).1 := by
  constructor
  · rfl
  · decide

/-- Claim C5 as amended: the connection is closed before run finishes on
every path on which run itself finishes (normal return, early dry-run
return, and panic unwinding), but on the fatal-error paths the process
terminates via os.Exit, which skips the deferred close, so no close
happens there. -/
theorem run_close_amended (env : Env) (o : deleteOptions) (d : Bool) :
    ((run env o d).2 ≠ RunOutcome.exited 1 →
      Event.closeConnection ∈ (run env o d).1) ∧
    ((run env o d).2 = RunOutcome.exited 1 →
      Event.closeConnection ∉ (run env o d).1) := by
  unfold run
  cases htok : resolveToken env with
  | error e => simp
  | ok tok =>
    cases hconn : env.connBuild with
    | error e => simp
    | ok u =>
      cases u
      cases d with
      | true => simp
      | false =>
        cases hclus : env.clusterGetResult with
        | error e => simp
        | ok c =>
          constructor
          · intro _
            simp [deleteStage, List.mem_append]
          · intro hex
            have : (checkStep env).2 = RunOutcome.exited 1 := by
              simpa [deleteStage] using hex
            exact absurd this (checkStep_not_exited env 1)

/-- Witness for amended C5: close happens on the normal-return path and is
absent on the cluster-fetch fatal path. -/
theorem run_close_amended_witness :
    ((run envOk opts0 false).2 ≠ RunOutcome.exited 1 ∧
      Event.closeConnection ∈ (run envOk opts0 false).1) ∧
    ((run envFetchFail opts0 false).2 = RunOutcome.exited 1 ∧
      Event.closeConnection ∉ (run envFetchFail opts0 false).1) :=
  ⟨⟨by decide, (run_close_amended envOk opts0 false).1 (by decide)⟩,
   ⟨by rfl, (run_close_amended envFetchFail opts0 false).2 (by rfl)⟩⟩

/-- Claim C8: in every invocation whose trace contains a DELETE send or a
request construction, the trace starts with the confirmation prompt, so
confirmSend occurs strictly before the request is built and sent. -/
theorem run_confirm_first (env : Env) (o : deleteOptions) (d : Bool)
    (h : (∃ req, Event.sendCall req ∈ (run env o d).1) ∨
         (∃ a b, Event.buildRequestCall a b ∈ (run env o d).1)) :
    ∃ t, (run env o d).1 = Event.confirmPrompt :: t := by
  cases htok : resolveToken env with
  | error e =>
      exfalso
      simp [run, htok] at h
  | ok tok =>
    cases hconn : env.connBuild with
    | error e =>
        exfalso
        simp [run, htok, hconn] at h
    | ok u =>
      cases u
      cases d with
      | true =>
          exfalso
          simp [run, htok, hconn] at h
      | false =>
        cases hclus : env.clusterGetResult with
        | error e =>
            refine ⟨[Event.clusterGetCall o.clusterID,
              Event.stderrPrint ("Can\x27t retrieve cluster: " ++ e ++ "\n")], ?_⟩
            simp [run, htok, hconn, hclus]
        | ok c =>
            refine ⟨Event.clusterGetCall o.clusterID ::
              ((deleteStage env o c).1 ++ [Event.closeConnection]), ?_⟩
            simp [run, htok, hconn, hclus]

/-- Witness for C8 in the fully successful world. -/
theorem run_confirm_first_witness :
    ((∃ req, Event.sendCall req ∈ (run envOk opts0 false).1) ∨
      (∃ a b, Event.buildRequestCall a b ∈ (run envOk opts0 false).1)) ∧
    (∃ t, (run envOk opts0 false).1 = Event.confirmPrompt :: t) :=
  ⟨Or.inl ⟨some req1, by decide⟩,
   run_confirm_first envOk opts0 false (Or.inl ⟨some req1, by decide⟩)⟩

/-- Claim C9: once the fatal preconditions hold (token, connection, cluster
fetch) and the transport yields a non-nil response, run returns no error
whatever the non-fatal steps do; the send step is always reached (even
after a path-construction failure, where the request sent is nil); and each
non-fatal failure is printed: the path-construction error, the send error,
and the interpretation error. -/
theorem run_nonfatal_continues (env : Env) (o : deleteOptions) (c : Cluster)
    (r : Response) (tok : String)
    (htok : resolveToken env = Except.ok tok)
    (hconn : env.connBuild = Except.ok ())
    (hclus : env.clusterGetResult = Except.ok c)
    (hresp : env.sendResp = some r) :
    (run env o false).2 = RunOutcome.returned none ∧
    Event.sendCall (buildStep env o c).2 ∈ (run env o false).1 ∧
    (∀ e, createDeleteRequest env.applyPath c o.limitedSupportReasonID = Except.error e →
      Event.stdoutPrint ("failed post call " ++ goQuote e ++ "\n") ∈ (run env o false).1 ∧
      Event.sendCall none ∈ (run env o false).1) ∧
    (∀ e, env.sendErr = some e →
      Event.stdoutPrint ("Failed to get delete call response: " ++ goQuote e ++ "\n") ∈
        (run env o false).1) ∧
    (∀ ps e, checkDelete env.json env.sendResp = GoResult.ret (ps, some e) →
      Event.stdoutPrint ("check for delete call failed: " ++ goQuote e) ∈
        (run env o false).1) := by
  have hrun1 : (run env o false).1 =
      Event.confirmPrompt :: Event.clusterGetCall o.clusterID ::
        (deleteStage env o c).1 ++ [Event.closeConnection] := by
    simp [run, htok, hconn, hclus]
  have hrun2 : (run env o false).2 = (checkStep env).2 := by
    simp [run, htok, hconn, hclus, deleteStage]
  refine ⟨?_, ?_, ?_, ?_, ?_⟩
  · rw [hrun2]
    exact checkStep_some_returned env r hresp
  · rw [hrun1]
    simp [deleteStage, List.mem_append]
  · intro e he
    have hb : buildStep env o c =
        ([Event.stdoutPrint ("failed post call " ++ goQuote e ++ "\n")], none) := by
      simp [buildStep, he]
    rw [hrun1]
    constructor
    · simp [deleteStage, hb, List.mem_append]
    · simp [deleteStage, hb, List.mem_append]
  · intro e he
    have hs : sendPrints env =
        [Event.stdoutPrint ("Failed to get delete call response: " ++ goQuote e ++ "\n")] := by
      simp [sendPrints, he]
    rw [hrun1]
    simp [deleteStage, hs, List.mem_append]
  · intro ps e hch
    have hc : (checkStep env).1 = ps.map Event.stdoutPrint ++
        [Event.stdoutPrint ("check for delete call failed: " ++ goQuote e)] := by
      simp [checkStep, hch]
    rw [hrun1]
    simp [deleteStage, hc, List.mem_append]

/-- Witness for C9 in the world where the path applier, the transport and
the interpretation all fail non-fatally. -/
theorem run_nonfatal_continues_witness :
    resolveToken envNonfatal = Except.ok "tok" ∧
    envNonfatal.clusterGetResult = Except.ok cluster1 ∧
    envNonfatal.sendResp = some resp500 ∧
    createDeleteRequest envNonfatal.applyPath cluster1 opts0.limitedSupportReasonID =
      Except.error pathErrMsg ∧
    ((run envNonfatal opts0 false).2 = RunOutcome.returned none ∧
     Event.stdoutPrint ("failed post call " ++ goQuote pathErrMsg ++ "\n") ∈
       (run envNonfatal opts0 false).1 ∧
     Event.sendCall none ∈ (run envNonfatal opts0 false).1 ∧
     Event.stdoutPrint ("Failed to get delete call response: " ++
       goQuote "transport down" ++ "\n") ∈ (run envNonfatal opts0 false).1 ∧
     Event.stdoutPrint ("check for delete call failed: " ++
       goQuote "server returned invalid JSON") ∈ (run envNonfatal opts0 false).1) := by
  have h := run_nonfatal_continues envNonfatal opts0 cluster1 resp500 "tok" rfl rfl rfl rfl
  exact ⟨rfl, rfl, rfl, rfl, h.1,
    (h.2.2.1 pathErrMsg rfl).1,
    (h.2.2.1 pathErrMsg rfl).2,
    h.2.2.2.1 "transport down" rfl,
    h.2.2.2.2 [] "server returned invalid JSON" rfl⟩

/-- Claim C10: when the send step fails, the orchestrator prints the send
error and still invokes checkDelete on the transport response, which may be
nil; and checkDelete on a nil response dereferences it and crashes rather
than taking any error branch. -/
theorem run_send_failure_nil (env : Env) (o : deleteOptions) (c : Cluster)
    (tok e : String)
    (htok : resolveToken env = Except.ok tok)
    (hconn : env.connBuild = Except.ok ())
    (hclus : env.clusterGetResult = Except.ok c)
    (hsend : env.sendErr = some e) :
    (Event.stdoutPrint ("Failed to get delete call response: " ++ goQuote e ++ "\n") ∈
       (run env o false).1 ∧
     Event.checkDeleteCall env.sendResp ∈ (run env o false).1) ∧
    (∀ J, checkDelete J none = GoResult.nilDeref) := by
  have hrun1 : (run env o false).1 =
      Event.confirmPrompt :: Event.clusterGetCall o.clusterID ::
        (deleteStage env o c).1 ++ [Event.closeConnection] := by
    simp [run, htok, hconn, hclus]
  refine ⟨⟨?_, ?_⟩, fun J => rfl⟩
  · have hs : sendPrints env =
        [Event.stdoutPrint ("Failed to get delete call response: " ++ goQuote e ++ "\n")] := by
      simp [sendPrints, hsend]
    rw [hrun1]
    simp [deleteStage, hs, List.mem_append]
  · rw [hrun1]
    simp [deleteStage, List.mem_append]

/-- Witness for C10 in the world where the send fails with a nil response:
the send error is printed, checkDelete is invoked on the nil response, and
checkDelete crashes there. -/
theorem run_send_failure_nil_witness :
    envNilSend.sendErr = some "conn reset" ∧
    envNilSend.sendResp = none ∧
    (Event.stdoutPrint ("Failed to get delete call response: " ++
       goQuote "conn reset" ++ "\n") ∈ (run envNilSend opts0 false).1 ∧
     Event.checkDeleteCall none ∈ (run envNilSend opts0 false).1) ∧
    checkDelete codec0 none = GoResult.nilDeref := by
  have h := run_send_failure_nil envNilSend opts0 cluster1 "tok" "conn reset" rfl rfl rfl rfl
  exact ⟨rfl, rfl, ⟨h.1.1, h.1.2⟩, h.2 codec0⟩

end OsdctlSupportDelete
